import Mathlib

/-!
Verification of the drumgen pattern-generation engine.

This file gives a shallow embedding, in Lean 4, of the `PatternGenerator`
class of `drumgen/grids.py` (drum-map bilinear interpolation, density
thresholding with randomized perturbation, Euclidean mode, and the
clock-divider state machine), together with the constant resource tables
`drum_map` and `euclidean_patterns` (ported from `tworld_grids.py`, which
carries the same tables and engine), and proves or refutes the documented
properties of the engine.

Machine integers are modelled as `Nat`; all the arithmetic of the source
(`>> k`, `& 0x3F`, `min`, truncating subtraction on in-range operands)
is non-negative and bounded, so no wrap-around modelling is needed
except where stated.  Random draws (`random.randint(0, 255)`, consumed
three at a time at cycle start) are passed in explicitly as a `Chans`
triple.
-/

def node_0 : List Nat := [
  255, 0, 0, 0, 0, 0, 145, 0, 0, 0, 0, 0, 218, 0, 0, 0,
  72, 0, 36, 0, 182, 0, 0, 0, 109, 0, 0, 0, 72, 0, 0, 0,
  36, 0, 109, 0, 0, 0, 8, 0, 255, 0, 0, 0, 0, 0, 72, 0,
  0, 0, 182, 0, 0, 0, 36, 0, 218, 0, 0, 0, 145, 0, 0, 0,
  170, 0, 113, 0, 255, 0, 56, 0, 170, 0, 141, 0, 198, 0, 56, 0,
  170, 0, 113, 0, 226, 0, 28, 0, 170, 0, 113, 0, 198, 0, 85, 0]

def node_1 : List Nat := [
  229, 0, 25, 0, 102, 0, 25, 0, 204, 0, 25, 0, 76, 0, 8, 0,
  255, 0, 8, 0, 51, 0, 25, 0, 178, 0, 25, 0, 153, 0, 127, 0,
  28, 0, 198, 0, 56, 0, 56, 0, 226, 0, 28, 0, 141, 0, 28, 0,
  28, 0, 170, 0, 28, 0, 28, 0, 255, 0, 113, 0, 85, 0, 85, 0,
  159, 0, 159, 0, 255, 0, 63, 0, 159, 0, 159, 0, 191, 0, 31, 0,
  159, 0, 127, 0, 255, 0, 31, 0, 159, 0, 127, 0, 223, 0, 95, 0]

def node_2 : List Nat := [
  255, 0, 0, 0, 127, 0, 0, 0, 0, 0, 102, 0, 0, 0, 229, 0,
  0, 0, 178, 0, 204, 0, 0, 0, 76, 0, 51, 0, 153, 0, 25, 0,
  0, 0, 127, 0, 0, 0, 0, 0, 255, 0, 191, 0, 31, 0, 63, 0,
  0, 0, 95, 0, 0, 0, 0, 0, 223, 0, 0, 0, 31, 0, 159, 0,
  255, 0, 85, 0, 148, 0, 85, 0, 127, 0, 85, 0, 106, 0, 63, 0,
  212, 0, 170, 0, 191, 0, 170, 0, 85, 0, 42, 0, 233, 0, 21, 0]

def node_3 : List Nat := [
  255, 0, 212, 0, 63, 0, 0, 0, 106, 0, 148, 0, 85, 0, 127, 0,
  191, 0, 21, 0, 233, 0, 0, 0, 21, 0, 170, 0, 0, 0, 42, 0,
  0, 0, 0, 0, 141, 0, 113, 0, 255, 0, 198, 0, 0, 0, 56, 0,
  0, 0, 85, 0, 56, 0, 28, 0, 226, 0, 28, 0, 170, 0, 56, 0,
  255, 0, 231, 0, 255, 0, 208, 0, 139, 0, 92, 0, 115, 0, 92, 0,
  185, 0, 69, 0, 46, 0, 46, 0, 162, 0, 23, 0, 208, 0, 46, 0]

def node_4 : List Nat := [
  255, 0, 31, 0, 63, 0, 63, 0, 127, 0, 95, 0, 191, 0, 63, 0,
  223, 0, 31, 0, 159, 0, 63, 0, 31, 0, 63, 0, 95, 0, 31, 0,
  8, 0, 0, 0, 95, 0, 63, 0, 255, 0, 0, 0, 127, 0, 0, 0,
  8, 0, 0, 0, 159, 0, 63, 0, 255, 0, 223, 0, 191, 0, 31, 0,
  76, 0, 25, 0, 255, 0, 127, 0, 153, 0, 51, 0, 204, 0, 102, 0,
  76, 0, 51, 0, 229, 0, 127, 0, 153, 0, 51, 0, 178, 0, 102, 0]

def node_5 : List Nat := [
  255, 0, 51, 0, 25, 0, 76, 0, 0, 0, 0, 0, 102, 0, 0, 0,
  204, 0, 229, 0, 0, 0, 178, 0, 0, 0, 153, 0, 127, 0, 8, 0,
  178, 0, 127, 0, 153, 0, 204, 0, 255, 0, 0, 0, 25, 0, 76, 0,
  102, 0, 51, 0, 0, 0, 0, 0, 229, 0, 25, 0, 25, 0, 204, 0,
  178, 0, 102, 0, 255, 0, 76, 0, 127, 0, 76, 0, 229, 0, 76, 0,
  153, 0, 102, 0, 255, 0, 25, 0, 127, 0, 51, 0, 204, 0, 51, 0]

def node_6 : List Nat := [
  255, 0, 0, 0, 223, 0, 0, 0, 31, 0, 8, 0, 127, 0, 0, 0,
  95, 0, 0, 0, 159, 0, 0, 0, 95, 0, 63, 0, 191, 0, 0, 0,
  51, 0, 204, 0, 0, 0, 102, 0, 255, 0, 127, 0, 8, 0, 178, 0,
  25, 0, 229, 0, 0, 0, 76, 0, 204, 0, 153, 0, 51, 0, 25, 0,
  255, 0, 226, 0, 255, 0, 255, 0, 198, 0, 28, 0, 141, 0, 56, 0,
  170, 0, 56, 0, 85, 0, 28, 0, 170, 0, 28, 0, 113, 0, 56, 0]

def node_7 : List Nat := [
  223, 0, 0, 0, 63, 0, 0, 0, 95, 0, 0, 0, 223, 0, 31, 0,
  255, 0, 0, 0, 159, 0, 0, 0, 127, 0, 31, 0, 191, 0, 31, 0,
  0, 0, 0, 0, 109, 0, 0, 0, 218, 0, 0, 0, 182, 0, 72, 0,
  8, 0, 36, 0, 145, 0, 36, 0, 255, 0, 8, 0, 182, 0, 72, 0,
  255, 0, 72, 0, 218, 0, 36, 0, 218, 0, 0, 0, 145, 0, 0, 0,
  255, 0, 36, 0, 182, 0, 36, 0, 182, 0, 0, 0, 109, 0, 0, 0]

def node_8 : List Nat := [
  255, 0, 0, 0, 218, 0, 0, 0, 36, 0, 0, 0, 218, 0, 0, 0,
  182, 0, 109, 0, 255, 0, 0, 0, 0, 0, 0, 0, 145, 0, 72, 0,
  159, 0, 0, 0, 31, 0, 127, 0, 255, 0, 31, 0, 0, 0, 95, 0,
  8, 0, 0, 0, 191, 0, 31, 0, 255, 0, 31, 0, 223, 0, 63, 0,
  255, 0, 31, 0, 63, 0, 31, 0, 95, 0, 31, 0, 63, 0, 127, 0,
  159, 0, 31, 0, 63, 0, 31, 0, 223, 0, 223, 0, 191, 0, 191, 0]

def node_9 : List Nat := [
  226, 0, 28, 0, 28, 0, 141, 0, 8, 0, 8, 0, 255, 0, 8, 0,
  113, 0, 28, 0, 198, 0, 85, 0, 56, 0, 198, 0, 170, 0, 28, 0,
  8, 0, 95, 0, 8, 0, 8, 0, 255, 0, 63, 0, 31, 0, 223, 0,
  8, 0, 31, 0, 191, 0, 8, 0, 255, 0, 127, 0, 127, 0, 159, 0,
  115, 0, 46, 0, 255, 0, 185, 0, 139, 0, 23, 0, 208, 0, 115, 0,
  231, 0, 69, 0, 255, 0, 162, 0, 139, 0, 115, 0, 231, 0, 92, 0]

def node_10 : List Nat := [
  145, 0, 0, 0, 0, 0, 109, 0, 0, 0, 0, 0, 255, 0, 109, 0,
  72, 0, 218, 0, 0, 0, 0, 0, 36, 0, 0, 0, 182, 0, 0, 0,
  0, 0, 127, 0, 159, 0, 127, 0, 159, 0, 191, 0, 223, 0, 63, 0,
  255, 0, 95, 0, 31, 0, 95, 0, 31, 0, 8, 0, 63, 0, 8, 0,
  255, 0, 0, 0, 145, 0, 0, 0, 182, 0, 109, 0, 109, 0, 109, 0,
  218, 0, 0, 0, 72, 0, 0, 0, 182, 0, 72, 0, 182, 0, 36, 0]

def node_11 : List Nat := [
  255, 0, 0, 0, 0, 0, 0, 0, 0, 0, 0, 0, 0, 0, 0, 0,
  255, 0, 0, 0, 218, 0, 72, 36, 0, 0, 182, 0, 0, 0, 145, 109,
  0, 0, 127, 0, 0, 0, 42, 0, 212, 0, 0, 212, 0, 0, 212, 0,
  0, 0, 0, 0, 42, 0, 0, 0, 255, 0, 0, 0, 170, 170, 127, 85,
  145, 0, 109, 109, 218, 109, 72, 0, 145, 0, 72, 0, 218, 0, 109, 0,
  182, 0, 109, 0, 255, 0, 72, 0, 182, 109, 36, 109, 255, 109, 109, 0]

def node_12 : List Nat := [
  255, 0, 0, 0, 255, 0, 191, 0, 0, 0, 0, 0, 95, 0, 63, 0,
  31, 0, 0, 0, 223, 0, 223, 0, 0, 0, 8, 0, 159, 0, 127, 0,
  0, 0, 85, 0, 56, 0, 28, 0, 255, 0, 28, 0, 0, 0, 226, 0,
  0, 0, 170, 0, 56, 0, 113, 0, 198, 0, 0, 0, 113, 0, 141, 0,
  255, 0, 42, 0, 233, 0, 63, 0, 212, 0, 85, 0, 191, 0, 106, 0,
  191, 0, 21, 0, 170, 0, 8, 0, 170, 0, 127, 0, 148, 0, 148, 0]

def node_13 : List Nat := [
  255, 0, 0, 0, 0, 0, 63, 0, 191, 0, 95, 0, 31, 0, 223, 0,
  255, 0, 63, 0, 95, 0, 63, 0, 159, 0, 0, 0, 0, 0, 127, 0,
  72, 0, 0, 0, 0, 0, 0, 0, 255, 0, 0, 0, 0, 0, 0, 0,
  72, 0, 72, 0, 36, 0, 8, 0, 218, 0, 182, 0, 145, 0, 109, 0,
  255, 0, 162, 0, 231, 0, 162, 0, 231, 0, 115, 0, 208, 0, 139, 0,
  185, 0, 92, 0, 185, 0, 46, 0, 162, 0, 69, 0, 162, 0, 23, 0]

def node_14 : List Nat := [
  255, 0, 0, 0, 51, 0, 0, 0, 0, 0, 0, 0, 102, 0, 0, 0,
  204, 0, 0, 0, 153, 0, 0, 0, 0, 0, 0, 0, 51, 0, 0, 0,
  0, 0, 0, 0, 8, 0, 36, 0, 255, 0, 0, 0, 182, 0, 8, 0,
  0, 0, 0, 0, 72, 0, 109, 0, 145, 0, 0, 0, 255, 0, 218, 0,
  212, 0, 8, 0, 170, 0, 0, 0, 127, 0, 0, 0, 85, 0, 8, 0,
  255, 0, 8, 0, 170, 0, 0, 0, 127, 0, 0, 0, 42, 0, 8, 0]

def node_15 : List Nat := [
  255, 0, 0, 0, 0, 0, 0, 0, 36, 0, 0, 0, 182, 0, 0, 0,
  218, 0, 0, 0, 0, 0, 0, 0, 72, 0, 0, 0, 145, 0, 109, 0,
  36, 0, 36, 0, 0, 0, 0, 0, 255, 0, 0, 0, 182, 0, 0, 0,
  0, 0, 0, 0, 0, 0, 0, 109, 218, 0, 0, 0, 145, 0, 72, 72,
  255, 0, 28, 0, 226, 0, 56, 0, 198, 0, 0, 0, 0, 0, 28, 28,
  170, 0, 0, 0, 141, 0, 0, 0, 113, 0, 0, 0, 85, 85, 85, 85]

def node_16 : List Nat := [
  255, 0, 0, 0, 0, 0, 95, 0, 0, 0, 127, 0, 0, 0, 0, 0,
  223, 0, 95, 0, 63, 0, 31, 0, 191, 0, 0, 0, 159, 0, 0, 0,
  0, 0, 31, 0, 255, 0, 0, 0, 0, 0, 95, 0, 223, 0, 0, 0,
  0, 0, 63, 0, 191, 0, 0, 0, 0, 0, 0, 0, 159, 0, 127, 0,
  141, 0, 28, 0, 28, 0, 28, 0, 113, 0, 8, 0, 8, 0, 8, 0,
  255, 0, 0, 0, 226, 0, 0, 0, 198, 0, 56, 0, 170, 0, 85, 0]

def node_17 : List Nat := [
  255, 0, 0, 0, 8, 0, 0, 0, 182, 0, 0, 0, 72, 0, 0, 0,
  218, 0, 0, 0, 36, 0, 0, 0, 145, 0, 0, 0, 109, 0, 0, 0,
  0, 0, 51, 25, 76, 25, 25, 0, 153, 0, 0, 0, 127, 102, 178, 0,
  204, 0, 0, 0, 0, 0, 255, 0, 0, 0, 102, 0, 229, 0, 76, 0,
  113, 0, 0, 0, 141, 0, 85, 0, 0, 0, 0, 0, 170, 0, 0, 0,
  56, 28, 255, 0, 0, 0, 0, 0, 198, 0, 0, 0, 226, 0, 0, 0]

def node_18 : List Nat := [
  255, 0, 8, 0, 28, 0, 28, 0, 198, 0, 56, 0, 56, 0, 85, 0,
  255, 0, 85, 0, 113, 0, 113, 0, 226, 0, 141, 0, 170, 0, 141, 0,
  0, 0, 0, 0, 0, 0, 0, 0, 255, 0, 0, 0, 127, 0, 0, 0,
  0, 0, 0, 0, 0, 0, 0, 0, 63, 0, 0, 0, 191, 0, 0, 0,
  255, 0, 0, 0, 255, 0, 127, 0, 0, 0, 85, 0, 0, 0, 212, 0,
  0, 0, 212, 0, 42, 0, 170, 0, 0, 0, 127, 0, 0, 0, 0, 0]

def node_19 : List Nat := [
  255, 0, 0, 0, 0, 0, 218, 0, 182, 0, 0, 0, 0, 0, 145, 0,
  145, 0, 36, 0, 0, 0, 109, 0, 109, 0, 0, 0, 72, 0, 36, 0,
  0, 0, 0, 0, 109, 0, 8, 0, 72, 0, 0, 0, 255, 0, 182, 0,
  0, 0, 0, 0, 145, 0, 8, 0, 36, 0, 8, 0, 218, 0, 182, 0,
  255, 0, 0, 0, 0, 0, 226, 0, 85, 0, 0, 0, 141, 0, 0, 0,
  0, 0, 0, 0, 170, 0, 56, 0, 198, 0, 0, 0, 113, 0, 28, 0]

def node_20 : List Nat := [
  255, 0, 0, 0, 113, 0, 0, 0, 198, 0, 56, 0, 85, 0, 28, 0,
  255, 0, 0, 0, 226, 0, 0, 0, 170, 0, 0, 0, 141, 0, 0, 0,
  0, 0, 0, 0, 0, 0, 0, 0, 255, 0, 145, 0, 109, 0, 218, 0,
  36, 0, 182, 0, 72, 0, 72, 0, 255, 0, 0, 0, 0, 0, 109, 0,
  36, 0, 36, 0, 145, 0, 0, 0, 72, 0, 72, 0, 182, 0, 0, 0,
  72, 0, 72, 0, 218, 0, 0, 0, 109, 0, 109, 0, 255, 0, 0, 0]

def node_21 : List Nat := [
  255, 0, 0, 0, 218, 0, 0, 0, 145, 0, 0, 0, 36, 0, 0, 0,
  218, 0, 0, 0, 36, 0, 0, 0, 182, 0, 72, 0, 0, 0, 109, 0,
  0, 0, 0, 0, 8, 0, 0, 0, 255, 0, 85, 0, 212, 0, 42, 0,
  0, 0, 0, 0, 8, 0, 0, 0, 85, 0, 170, 0, 127, 0, 42, 0,
  109, 0, 109, 0, 255, 0, 0, 0, 72, 0, 72, 0, 218, 0, 0, 0,
  145, 0, 182, 0, 255, 0, 0, 0, 36, 0, 36, 0, 218, 0, 8, 0]

def node_22 : List Nat := [
  255, 0, 0, 0, 42, 0, 0, 0, 212, 0, 0, 0, 8, 0, 212, 0,
  170, 0, 0, 0, 85, 0, 0, 0, 212, 0, 8, 0, 127, 0, 8, 0,
  255, 0, 85, 0, 0, 0, 0, 0, 226, 0, 85, 0, 0, 0, 198, 0,
  0, 0, 141, 0, 56, 0, 0, 0, 170, 0, 28, 0, 0, 0, 113, 0,
  113, 0, 56, 0, 255, 0, 0, 0, 85, 0, 56, 0, 226, 0, 0, 0,
  0, 0, 170, 0, 0, 0, 141, 0, 28, 0, 28, 0, 198, 0, 28, 0]

def node_23 : List Nat := [
  255, 0, 0, 0, 229, 0, 0, 0, 204, 0, 204, 0, 0, 0, 76, 0,
  178, 0, 153, 0, 51, 0, 178, 0, 178, 0, 127, 0, 102, 51, 51, 25,
  0, 0, 0, 0, 0, 0, 0, 31, 0, 0, 0, 0, 255, 0, 0, 31,
  0, 0, 8, 0, 0, 0, 191, 159, 127, 95, 95, 0, 223, 0, 63, 0,
  255, 0, 255, 0, 204, 204, 204, 204, 0, 0, 51, 51, 51, 51, 0, 0,
  204, 0, 204, 0, 153, 153, 153, 153, 153, 0, 0, 0, 102, 102, 102, 102]

def node_24 : List Nat := [
  170, 0, 0, 0, 0, 255, 0, 0, 198, 0, 0, 0, 0, 28, 0, 0,
  141, 0, 0, 0, 0, 226, 0, 0, 56, 0, 0, 113, 0, 85, 0, 0,
  255, 0, 0, 0, 0, 113, 0, 0, 85, 0, 0, 0, 0, 226, 0, 0,
  141, 0, 0, 8, 0, 170, 56, 56, 198, 0, 0, 56, 0, 141, 28, 0,
  255, 0, 0, 0, 0, 191, 0, 0, 159, 0, 0, 0, 0, 223, 0, 0,
  95, 0, 0, 0, 0, 63, 0, 0, 127, 0, 0, 0, 0, 31, 0, 0]

def euclidean_patterns : List Nat := [
  0x00000000, 0x80000000, 0x80008000, 0x80808080, 0x88080808, 0x88088088, 0x88888888, 0x92492492,
  0x00000000, 0x80000000, 0x80008000, 0x80808080, 0x88080808, 0x88088088, 0x88888888, 0x92492492,
  0x00000000, 0x80000000, 0x80008000, 0x80808080, 0x88080808, 0x88088088, 0x88888888, 0x92492492,
  0x00000000, 0x80000000, 0x80008000, 0x80808080, 0x88080808, 0x88088088, 0x88888888, 0x92492492,
  0x00000000, 0x80000000, 0x84004000, 0x84208410, 0x88220811, 0x89124889, 0x91248891, 0x92492492,
  0x00000000, 0x80000000, 0x82002000, 0x88082080, 0x88822080, 0x90909088, 0x92249249, 0x94924924,
  0x00000000, 0x80000000, 0x80008000, 0x84008400, 0x88084808, 0x90089008, 0x92289228, 0x94489448,
  0x00000000, 0x80000000, 0x80040000, 0x82082080, 0x88084808, 0x88888808, 0x92288888, 0x92488888,
  0x00000000, 0x80000000, 0x80008000, 0x80808080, 0x84084084, 0x88088808, 0x90090909, 0x92492492,
  0x00000000, 0x80000000, 0x80008000, 0x80808080, 0x84084084, 0x88088808, 0x90090909, 0x92492492,
  0x00000000, 0x80000000, 0x80020000, 0x82008200, 0x88022088, 0x88888222, 0x90909090, 0x92492492,
  0x00000000, 0x80000000, 0x80100010, 0x84104104, 0x88888410, 0x90909090, 0x92492492, 0x94924924,
  0x00000000, 0x80000000, 0x80808080, 0x84848484, 0x88888888, 0x90909090, 0x92492492, 0x94924924,
  0x00000000, 0x80000000, 0x82000000, 0x88000800, 0x88888000, 0x90909088, 0x92492490, 0x94924924,
  0x00000000, 0x80000000, 0x82000000, 0x88000800, 0x88888000, 0x90909088, 0x92492490, 0x94924924,
  0x00000000, 0x80000000, 0x84000000, 0x88200820, 0x88888220, 0x90909090, 0x92492492, 0x94924924,
  0x00000000, 0x80000000, 0x88000000, 0x88880880, 0x88888888, 0x90909090, 0x92492492, 0x94924924,
  0x00000000, 0x80000000, 0x88000000, 0x88880880, 0x88888888, 0x90909090, 0x92492492, 0x94924924,
  0x00000000, 0x80000000, 0x88000000, 0x88880880, 0x88888888, 0x90909090, 0x92492492, 0x94924924,
  0x00000000, 0x80000000, 0x88000000, 0x88880880, 0x88888888, 0x90909090, 0x92492492, 0x94924924,
  0x00000000, 0x80000000, 0x90000000, 0x90909090, 0x90909090, 0x92492492, 0x92492492, 0x94924924,
  0x00000000, 0x80000000, 0x90000000, 0x90909090, 0x90909090, 0x92492492, 0x92492492, 0x94924924,
  0x00000000, 0x80000000, 0x90000000, 0x90909090, 0x90909090, 0x92492492, 0x92492492, 0x94924924,
  0x00000000, 0x80000000, 0x90000000, 0x90909090, 0x90909090, 0x92492492, 0x92492492, 0x94924924,
  0x00000000, 0x80000000, 0xa0000000, 0xa0a0a0a0, 0xa0a0a0a0, 0xa4a4a4a4, 0xa4a4a4a4, 0xa4a4a4a4,
  0x00000000, 0x80000000, 0xa0000000, 0xa0a0a0a0, 0xa0a0a0a0, 0xa4a4a4a4, 0xa4a4a4a4, 0xa4a4a4a4,
  0x00000000, 0x80000000, 0xa0000000, 0xa0a0a0a0, 0xa0a0a0a0, 0xa4a4a4a4, 0xa4a4a4a4, 0xa4a4a4a4,
  0x00000000, 0x80000000, 0xa0000000, 0xa0a0a0a0, 0xa0a0a0a0, 0xa4a4a4a4, 0xa4a4a4a4, 0xa4a4a4a4,
  0x00000000, 0x80000000, 0xc0000000, 0xc0c0c0c0, 0xc0c0c0c0, 0xc0c0c0c0, 0xc0c0c0c0, 0xc4c4c4c4,
  0x00000000, 0x80000000, 0xc0000000, 0xc0c0c0c0, 0xc0c0c0c0, 0xc0c0c0c0, 0xc0c0c0c0, 0xc4c4c4c4,
  0x00000000, 0x80000000, 0xc0000000, 0xc0c0c0c0, 0xc0c0c0c0, 0xc0c0c0c0, 0xc0c0c0c0, 0xc4c4c4c4,
  0x00000000, 0x80000000, 0xc0000000, 0xc0c0c0c0, 0xc0c0c0c0, 0xc0c0c0c0, 0xc0c0c0c0, 0xc4c4c4c4]

/-- The 5 x 5 grid of drum-map nodes, row index is the x cell, column
index the y cell, exactly as assembled in the source (`drum_map = [[...]]`). -/
def drum_map : List (List (List Nat)) :=
  [[node_10, node_8, node_0, node_9, node_11],
   [node_15, node_7, node_13, node_12, node_6],
   [node_18, node_14, node_4, node_5, node_3],
   [node_23, node_16, node_21, node_1, node_2],
   [node_24, node_19, node_17, node_20, node_22]]

/-- A triple of per-channel byte values (`array("B", [_, _, _])` in the
source): used for `density`, `euclidean_step`, `part_perturbation` and for
the three random draws consumed at cycle start. -/
structure Chans where
  c0 : Nat
  c1 : Nat
  c2 : Nat
deriving DecidableEq, Repr

/-- Read channel `i` of a triple (indices 0, 1, 2; the source only ever
indexes with 0..2, any other index is given the default 0). -/
def Chans.get (ch : Chans) (i : Nat) : Nat :=
  match i with
  | 0 => ch.c0
  | 1 => ch.c1
  | 2 => ch.c2
  | _ => 0

/-- Write channel `i` of a triple. -/
def Chans.set (ch : Chans) (i v : Nat) : Chans :=
  match i with
  | 0 => { ch with c0 := v }
  | 1 => { ch with c1 := v }
  | 2 => { ch with c2 := v }
  | _ => ch

/-- The `output_mode` of the generator: the source uses the strings
"grids" and "euclidean". -/
inductive OutputMode where
  | grids
  | euclidean
deriving DecidableEq, Repr

/-- The mutable state of `PatternGenerator` (the constant resources
`drum_map` / `euclidean_patterns` live outside the record). -/
structure PGState where
  x : Nat
  y : Nat
  randomness : Nat
  density : Chans
  step : Nat
  pulse : Nat
  euclidean_step : Chans
  output_mode : OutputMode
  clock_resolution : Nat
  pulses_per_step : Nat
  part_perturbation : Chans
deriving DecidableEq, Repr

/-- The state built by `PatternGenerator.__init__`. -/
def initState : PGState :=
  { x := 128, y := 128, randomness := 0, density := ⟨128, 128, 128⟩,
    step := 0, pulse := 0, euclidean_step := ⟨0, 0, 0⟩,
    output_mode := OutputMode.grids, clock_resolution := 2,
    pulses_per_step := 3, part_perturbation := ⟨0, 0, 0⟩ }

/-- The fixed-point mix
`_u8_mix(a, b, balance) = ((b * balance) + (a * (255 - balance))) >> 8`. -/
def u8_mix (a b balance : Nat) : Nat :=
  ((b * balance) + (a * (255 - balance))) >>> 8

/-- The interpolator `read_drum_map(step, instrument)`: bilinear interpolation between the
four drum-map nodes around cell `(x >> 6, y >> 6)`, with the indices of
the far corners clamped to 4 and blend weights `(x & 0x3F) << 2`,
`(y & 0x3F) << 2`.  The source reads `x`, `y` from the state; here they
are the first two arguments. -/
def read_drum_map (x y step instrument : Nat) : Nat :=
  let i := x >>> 6
  let j := y >>> 6
  let offset := instrument * 32 + step
  let a_map := (drum_map.getD i []).getD j []
  let b_map := (drum_map.getD (min (i + 1) 4) []).getD j []
  let c_map := (drum_map.getD i []).getD (min (j + 1) 4) []
  let d_map := (drum_map.getD (min (i + 1) 4) []).getD (min (j + 1) 4) []
  let a := a_map.getD offset 0
  let b := b_map.getD offset 0
  let c := c_map.getD offset 0
  let d := d_map.getD offset 0
  let x_balance := (x &&& 0x3F) <<< 2
  let y_balance := (y &&& 0x3F) <<< 2
  u8_mix (u8_mix a b x_balance) (u8_mix c d x_balance) y_balance

/-- The saturating perturbation add of `evaluate_drums`:
`if level < 255 - pert: level += pert else: level = 255`. -/
def perturb (level pert : Nat) : Nat :=
  if level < 255 - pert then level + pert else 255

/-- One iteration of the channel loop of `evaluate_drums`: the
accumulator carries the `(state, accent_bits)` pair. -/
def chan_step (x y step : Nat) (pert density : Chans) (acc : Nat × Nat) (i : Nat) :
    Nat × Nat :=
  let level := perturb (read_drum_map x y step i) (pert.get i)
  let threshold := 255 - density.get i
  if threshold < level then
    (acc.1 ||| (1 <<< i), if 192 < level then acc.2 ||| (1 <<< i) else acc.2)
  else
    acc

/-- The cycle-start re-roll of `evaluate_drums`: when `step == 0`, each
`part_perturbation[i]` is set to `(randint(0, 255) * randomness) >> 8`;
`r` carries the three injected random draws. -/
def reroll_perturbation (s : PGState) (r : Chans) : PGState :=
  if s.step = 0 then
    { s with part_perturbation :=
        ⟨(r.c0 * s.randomness) >>> 8, (r.c1 * s.randomness) >>> 8,
         (r.c2 * s.randomness) >>> 8⟩ }
  else s

/-- Grid mode `evaluate_drums()`: re-roll the perturbations at cycle start, run the
channel loop, and compose the output byte
`state | (accent_bits << 3) | (1 << 6) | (step == 0 ? 1 << 7 : 0)`.
Returns the byte together with the successor state. -/
def evaluate_drums (s : PGState) (r : Chans) : Nat × PGState :=
  let s' := reroll_perturbation s r
  let sa := [0, 1, 2].foldl (chan_step s'.x s'.y s'.step s'.part_perturbation s'.density) (0, 0)
  let combined := sa.1 ||| (sa.2 <<< 3)
  let combined := combined ||| (1 <<< 6)
  let combined := if s'.step = 0 then combined ||| (1 <<< 7) else combined
  (combined, s')

/-- The mask consulted by `evaluate_euclidean` for one channel:
`length = (density >> 5) + 1; pattern = euclidean_patterns[length - 1]`. -/
def euclidean_mask (density_c : Nat) : Nat :=
  let length := (density_c >>> 5) + 1
  euclidean_patterns.getD (length - 1) 0

/-- Euclidean mode `evaluate_euclidean()`: for each channel test bit `euclidean_step[i]`
of its mask, or bit `i` into the output state, and advance the cursor by
one modulo 32.  Returns the output state with the successor state. -/
def evaluate_euclidean (s : PGState) : Nat × PGState :=
  let f := fun (acc : Nat × Chans) (i : Nat) =>
    let pattern := euclidean_mask (s.density.get i)
    let state := if pattern &&& (1 <<< acc.2.get i) ≠ 0 then acc.1 ||| (1 <<< i) else acc.1
    (state, acc.2.set i ((acc.2.get i + 1) % 32))
  let res := [0, 1, 2].foldl f (0, s.euclidean_step)
  (res.1, { s with euclidean_step := res.2 })

/-- The clock divider `tick_clock(num_pulses=1)`: add the pulses, and — with an `if`, not a
`while` — subtract `pulses_per_step` and advance the step at most once. -/
def tick_clock (s : PGState) (num_pulses : Nat) : PGState :=
  let pulse := s.pulse + num_pulses
  if s.pulses_per_step ≤ pulse then
    { s with pulse := pulse - s.pulses_per_step, step := (s.step + 1) % 32 }
  else
    { s with pulse := pulse }

/-- The dispatch `evaluate()`: dispatch on the output mode when `pulse == 0`, else
return 0 leaving the state untouched. -/
def evaluate (s : PGState) (r : Chans) : Nat × PGState :=
  if s.pulse = 0 then
    match s.output_mode with
    | OutputMode.grids => evaluate_drums s r
    | OutputMode.euclidean => evaluate_euclidean s
  else
    (0, s)

/-- Iterate `tick_clock` with single pulses. -/
def tick_iter (s : PGState) : Nat → PGState
  | 0 => s
  | n + 1 => tick_clock (tick_iter s n) 1

/-- The state after `n` consecutive `evaluate_euclidean` calls. -/
def euc_iter (s : PGState) : Nat → PGState
  | 0 => s
  | n + 1 => (evaluate_euclidean (euc_iter s n)).2

/-- The output of the `(n+1)`-st consecutive `evaluate_euclidean` call. -/
def euc_out (s : PGState) (n : Nat) : Nat :=
  (evaluate_euclidean (euc_iter s n)).1

/-- Reference function for the grid mode with all-zero perturbation: the
output byte as a function of `(x, y, density, step)` alone — no random
draws, no other state. -/
def drumsRef (x y : Nat) (density : Chans) (step : Nat) : Nat :=
  let sa := [0, 1, 2].foldl (chan_step x y step ⟨0, 0, 0⟩ density) (0, 0)
  let combined := sa.1 ||| (sa.2 <<< 3)
  let combined := combined ||| (1 <<< 6)
  if step = 0 then combined ||| (1 <<< 7) else combined

/-! ## Claim C1 (clock divider, multi-pulse roll-over) -/

/-- Claim C1 fails on the code: `tick_clock` guards the roll-over with an
`if`, not a `while`.  From the initial state (`step = 0`, `pulse = 0`,
`pulses_per_step = 3`), `tick_clock(6)` leaves `pulse = 3`, violating the
invariant `pulse < pulses_per_step`, and advances `step` to 1 instead of
`(0 + 6) / 3 mod 32 = 2`. -/
theorem tick_clock_six_breaks_invariant :
    (tick_clock initState 6).pulse = 3 ∧
    ¬ (tick_clock initState 6).pulse < (tick_clock initState 6).pulses_per_step ∧
    (tick_clock initState 6).step = 1 ∧
    (initState.pulse + 6) / initState.pulses_per_step % 32 = 2 := by
  decide

/-! ## Claim C4 (saturating perturbation) -/

/-- Claim C4: for levels and perturbations in 0..255 the perturbed level
of `evaluate_drums` is `level + pert` when `level < 255 - pert` and 255
otherwise, i.e. exactly `min (level + pert) 255`: it never exceeds 255
and never wraps. -/
theorem perturb_saturating (level pert : Nat) (hl : level ≤ 255) (hp : pert ≤ 255) :
    perturb level pert = min (level + pert) 255 := by
  unfold perturb
  split <;> omega

/-- Witness for C4 at the spec's own figures: `level = 250`,
`pert = 10` saturates to 255. -/
theorem perturb_saturating_witness :
    (250 : Nat) ≤ 255 ∧ (10 : Nat) ≤ 255 ∧ perturb 250 10 = min (250 + 10) 255 :=
  ⟨by decide, by decide, perturb_saturating 250 10 (by decide) (by decide)⟩

/-! ## Claim C7 (one full cycle at 24 PPQN) -/

set_option maxRecDepth 4000 in
/-- Claim C7: from the initial state (`step = 0`, `pulse = 0`,
`pulses_per_step = 3`), 96 calls of `tick_clock(1)` return the clock to
`step = 0`, `pulse = 0`. -/
theorem tick_clock_96_cycle :
    (tick_iter initState 96).step = 0 ∧ (tick_iter initState 96).pulse = 0 := by
  decide

/-! ## Claim C9 (evaluate off a step boundary is a pure no-op) -/

/-- Claim C9: when `pulse` is nonzero, `evaluate` returns 0 and the state
is returned unchanged, whatever the output mode and the random draws. -/
theorem evaluate_nonzero_pulse (s : PGState) (r : Chans) (h : s.pulse ≠ 0) :
    evaluate s r = (0, s) := by
  unfold evaluate
  rw [if_neg h]

/-- Witness for C9 at a concrete mid-step state. -/
theorem evaluate_nonzero_pulse_witness :
    ({ initState with pulse := 1 } : PGState).pulse ≠ 0 ∧
    evaluate { initState with pulse := 1 } ⟨7, 8, 9⟩ = (0, { initState with pulse := 1 }) :=
  ⟨by decide, evaluate_nonzero_pulse { initState with pulse := 1 } ⟨7, 8, 9⟩ (by decide)⟩

/-! ## Claim C2 (boundary exactness of the interpolator) -/

/-- Claim C2 fails on the code: the truncating `_u8_mix` loses 1 per
stage on nonzero values, so at `x = 0, y = 0, step = 0, channel = 0` the
interpolator returns 143 while the raw byte of node (0,0) is 145; at
`x = 255, y = 255` the blend weight is 252 (not 255), the interpolator
returns 252 while the raw byte of node (4,4) is 255. -/
theorem read_drum_map_corner_counterexample :
    read_drum_map 0 0 0 0 ≠ ((drum_map.getD 0 []).getD 0 []).getD (0 * 32 + 0) 0 ∧
    read_drum_map 255 255 0 0 ≠ ((drum_map.getD 4 []).getD 4 []).getD (0 * 32 + 0) 0 := by
  decide

set_option maxRecDepth 8000 in
/-- Claim C2 amended: at `x = 0, y = 0` the interpolated level equals the
raw byte of node (0,0) less the truncation loss of the two mix stages
(truncated subtraction of 2); at `x = 255, y = 255` the level is a
balance-252 blend around cell (3,3) and agrees with node (4,4)'s raw
byte only to within 8. -/
theorem read_drum_map_corners :
    ∀ step, step < 32 → ∀ channel, channel < 3 →
      read_drum_map 0 0 step channel
        = ((drum_map.getD 0 []).getD 0 []).getD (channel * 32 + step) 0 - 2 ∧
      read_drum_map 255 255 step channel
          - ((drum_map.getD 4 []).getD 4 []).getD (channel * 32 + step) 0 ≤ 8 ∧
      ((drum_map.getD 4 []).getD 4 []).getD (channel * 32 + step) 0
          - read_drum_map 255 255 step channel ≤ 8 := by
  decide

/-- Witness for the amended C2 at `step = 0`, `channel = 0`. -/
theorem read_drum_map_corners_witness :
    (0 : Nat) < 32 ∧ (0 : Nat) < 3 ∧
      (read_drum_map 0 0 0 0
        = ((drum_map.getD 0 []).getD 0 []).getD (0 * 32 + 0) 0 - 2 ∧
      read_drum_map 255 255 0 0
          - ((drum_map.getD 4 []).getD 4 []).getD (0 * 32 + 0) 0 ≤ 8 ∧
      ((drum_map.getD 4 []).getD 4 []).getD (0 * 32 + 0) 0
          - read_drum_map 255 255 0 0 ≤ 8) :=
  ⟨by decide, by decide, read_drum_map_corners 0 (by decide) 0 (by decide)⟩

/-! ## Claim C3 (which Euclidean table entry is consulted) -/

/-- Claim C3 fails on the code: for `density = 255` the pattern length is
8, whose bucket under the 32-by-8 layout occupies flat indices 56..63,
but the mask consulted is the flat entry at index 7, which differs from
all eight entries of that bucket. -/
theorem euclidean_mask_bucket_counterexample :
    ((255 : Nat) >>> 5) + 1 = 8 ∧
    (∀ k, k < 8 → euclidean_mask 255 ≠ euclidean_patterns.getD ((8 - 1) * 8 + k) 0) := by
  decide

/-- Claim C3 amended: for every density `d` in 0..255 the mask consulted
by `evaluate_euclidean` is the flat entry of `euclidean_patterns` at
index `d >> 5 = length - 1`, which always lies inside the bucket of
pattern length 1 (flat indices 0..7); for `d ≥ 128` the consulted mask
moreover differs from every entry of the bucket for length `(d >> 5) + 1`. -/
theorem euclidean_mask_first_bucket (d : Nat) (hd : d ≤ 255) :
    euclidean_mask d = euclidean_patterns.getD ((1 - 1) * 8 + (d >>> 5)) 0 ∧
    d >>> 5 < 8 ∧
    (128 ≤ d → ∀ k, k < 8 →
      euclidean_mask d ≠ euclidean_patterns.getD ((d >>> 5) * 8 + k) 0) := by
  have hv : d >>> 5 = d / 32 := by
    rw [Nat.shiftRight_eq_div_pow]
  refine ⟨by simp [euclidean_mask], by rw [hv]; omega, ?_⟩
  intro h128
  have h4 : d / 32 = 4 ∨ d / 32 = 5 ∨ d / 32 = 6 ∨ d / 32 = 7 := by omega
  unfold euclidean_mask
  rw [hv]
  rcases h4 with h | h | h | h <;> rw [h] <;> decide

/-- Witness for the amended C3 at `d = 255`. -/
theorem euclidean_mask_first_bucket_witness :
    (255 : Nat) ≤ 255 ∧
    (euclidean_mask 255 = euclidean_patterns.getD ((1 - 1) * 8 + ((255 : Nat) >>> 5)) 0 ∧
     (255 : Nat) >>> 5 < 8 ∧
     (128 ≤ (255 : Nat) → ∀ k, k < 8 →
       euclidean_mask 255 ≠ euclidean_patterns.getD (((255 : Nat) >>> 5) * 8 + k) 0)) :=
  ⟨by decide, euclidean_mask_first_bucket 255 (by decide)⟩

/-! ## Shared facts about the channel loop of `evaluate_drums` -/

/-- The saturating perturbation never exceeds 255. -/
theorem perturb_le (level pert : Nat) : perturb level pert ≤ 255 := by
  unfold perturb
  split <;> omega

/-- One channel-loop iteration keeps both bit accumulators below 8. -/
theorem chan_step_bound (x y step : Nat) (pert density : Chans) (acc : Nat × Nat)
    (i : Nat) (hi : i < 3) (h1 : acc.1 < 8) (h2 : acc.2 < 8) :
    (chan_step x y step pert density acc i).1 < 8 ∧
    (chan_step x y step pert density acc i).2 < 8 := by
  have hpow : (1 <<< i) < 2 ^ 3 := by
    interval_cases i <;> decide
  have h1' : acc.1 < 2 ^ 3 := h1
  have h2' : acc.2 < 2 ^ 3 := h2
  unfold chan_step
  dsimp only
  split
  · refine ⟨Nat.or_lt_two_pow h1' hpow, ?_⟩
    split
    · exact Nat.or_lt_two_pow h2' hpow
    · exact h2
  · exact ⟨h1, h2⟩

/-- The whole channel loop keeps both bit accumulators below 8. -/
theorem drum_fold_bound (x y step : Nat) (pert density : Chans) :
    ([0, 1, 2].foldl (chan_step x y step pert density) (0, 0)).1 < 8 ∧
    ([0, 1, 2].foldl (chan_step x y step pert density) (0, 0)).2 < 8 := by
  simp only [List.foldl]
  have b0 := chan_step_bound x y step pert density (0, 0) 0 (by decide) (by decide) (by decide)
  have b1 := chan_step_bound x y step pert density _ 1 (by decide) b0.1 b0.2
  exact chan_step_bound x y step pert density _ 2 (by decide) b1.1 b1.2

/-- The cycle-start re-roll does not change the step counter. -/
theorem reroll_step (s : PGState) (r : Chans) : (reroll_perturbation s r).step = s.step := by
  unfold reroll_perturbation
  split <;> rfl

/-- Bit 6 of the composed output word is always set. -/
theorem testBit_or3_6 (a b : Nat) : Nat.testBit (a ||| b <<< 3 ||| 1 <<< 6) 6 = true := by
  rw [Nat.testBit_or]
  have h : Nat.testBit (1 <<< 6) 6 = true := by decide
  rw [h, Bool.or_true]

/-- Bit 7 of the composed output word, before the reset bit is added, is
clear whenever both accumulators are below 8. -/
theorem testBit_or3_7 (a b : Nat) (ha : a < 8) (hb : b < 8) :
    Nat.testBit (a ||| b <<< 3 ||| 1 <<< 6) 7 = false := by
  rw [Nat.testBit_or, Nat.testBit_or]
  have h1 : Nat.testBit a 7 = false :=
    Nat.testBit_eq_false_of_lt (lt_of_lt_of_le ha (by norm_num))
  have h2 : Nat.testBit (b <<< 3) 7 = false := by
    rw [Nat.testBit_shiftLeft]
    have hb4 : Nat.testBit b 4 = false :=
      Nat.testBit_eq_false_of_lt (lt_of_lt_of_le hb (by norm_num))
    simp [hb4]
  have h3 : Nat.testBit (1 <<< 6) 7 = false := by decide
  rw [h1, h2, h3]
  rfl

/-! ## Claim C5 (clock and reset bits) -/

/-- Claim C5: every byte returned by `evaluate_drums` has bit 6 (clock
indicator) set, and has bit 7 (cycle-reset indicator) set exactly when
`step = 0` at the moment of evaluation. -/
theorem evaluate_drums_clock_reset_bits (s : PGState) (r : Chans) :
    Nat.testBit (evaluate_drums s r).1 6 = true ∧
    (Nat.testBit (evaluate_drums s r).1 7 = true ↔ s.step = 0) := by
  obtain ⟨h1, h2⟩ := drum_fold_bound (reroll_perturbation s r).x (reroll_perturbation s r).y
      s.step (reroll_perturbation s r).part_perturbation
      (reroll_perturbation s r).density
  unfold evaluate_drums
  dsimp only
  rw [reroll_step s r]
  split
  · next h0 =>
    constructor
    · rw [Nat.testBit_or, testBit_or3_6, Bool.true_or]
    · rw [Nat.testBit_or]
      have h128 : Nat.testBit (1 <<< 7) 7 = true := by decide
      rw [h128, Bool.or_true]
      exact iff_of_true rfl h0
  · next h0 =>
    refine ⟨testBit_or3_6 _ _, ?_⟩
    rw [testBit_or3_7 _ _ h1 h2]
    exact iff_of_false (by simp) h0

/-! ## Claim C10 (zero density yields no trigger and no accent) -/

/-- A channel whose density is 0 has threshold 255, which the saturated
level can never strictly exceed: its loop iteration is a no-op. -/
theorem chan_step_density_zero (x y step : Nat) (pert density : Chans) (acc : Nat × Nat)
    (i : Nat) (hd : density.get i = 0) :
    chan_step x y step pert density acc i = acc := by
  have hle := perturb_le (read_drum_map x y step i) (pert.get i)
  unfold chan_step
  dsimp only
  rw [hd, if_neg (by omega)]

/-- A loop iteration for channel `i` leaves any output bit `c ≠ i` of
both accumulators clear if it was clear. -/
theorem chan_step_testBit_preserve (x y step : Nat) (pert density : Chans) (acc : Nat × Nat)
    (i c : Nat) (hne : i ≠ c)
    (h1 : Nat.testBit acc.1 c = false) (h2 : Nat.testBit acc.2 c = false) :
    Nat.testBit (chan_step x y step pert density acc i).1 c = false ∧
    Nat.testBit (chan_step x y step pert density acc i).2 c = false := by
  have hbit : Nat.testBit (1 <<< i) c = false := by
    rw [Nat.one_shiftLeft]
    exact Nat.testBit_two_pow_of_ne hne
  unfold chan_step
  dsimp only
  split
  · refine ⟨?_, ?_⟩
    · rw [Nat.testBit_or, h1, hbit]
      rfl
    · split
      · rw [Nat.testBit_or, h2, hbit]
        rfl
      · exact h2
  · exact ⟨h1, h2⟩

/-- Over the whole channel loop, a zero-density channel's trigger and
accent bits stay clear. -/
theorem drum_fold_density_zero (x y step : Nat) (pert density : Chans) (c : Nat)
    (hc : c < 3) (hd : density.get c = 0) :
    Nat.testBit ([0, 1, 2].foldl (chan_step x y step pert density) (0, 0)).1 c = false ∧
    Nat.testBit ([0, 1, 2].foldl (chan_step x y step pert density) (0, 0)).2 c = false := by
  simp only [List.foldl]
  have hz : Nat.testBit 0 c = false := Nat.zero_testBit c
  interval_cases c
  · rw [chan_step_density_zero x y step pert density (0, 0) 0 hd]
    have p1 := chan_step_testBit_preserve x y step pert density (0, 0) 1 0 (by decide) hz hz
    exact chan_step_testBit_preserve x y step pert density _ 2 0 (by decide) p1.1 p1.2
  · have p0 := chan_step_testBit_preserve x y step pert density (0, 0) 0 1 (by decide) hz hz
    rw [chan_step_density_zero x y step pert density _ 1 hd]
    exact chan_step_testBit_preserve x y step pert density _ 2 1 (by decide) p0.1 p0.2
  · have p0 := chan_step_testBit_preserve x y step pert density (0, 0) 0 2 (by decide) hz hz
    have p1 := chan_step_testBit_preserve x y step pert density _ 1 2 (by decide) p0.1 p0.2
    rw [chan_step_density_zero x y step pert density _ 2 hd]
    exact p1

/-- The cycle-start re-roll does not change the densities. -/
theorem reroll_density (s : PGState) (r : Chans) :
    (reroll_perturbation s r).density = s.density := by
  unfold reroll_perturbation
  split <;> rfl

/-- Claim C10: whenever `density[c] = 0` for a channel `c`, the byte
returned by `evaluate_drums` has trigger bit `c` and accent bit `c + 3`
clear, for every state, every random draw, and both reset cases. -/
theorem evaluate_drums_zero_density (s : PGState) (r : Chans) (c : Nat) (hc : c < 3)
    (hd : s.density.get c = 0) :
    Nat.testBit (evaluate_drums s r).1 c = false ∧
    Nat.testBit (evaluate_drums s r).1 (c + 3) = false := by
  have hd' : (reroll_perturbation s r).density.get c = 0 := by
    rw [reroll_density]
    exact hd
  obtain ⟨hb1, hb2⟩ := drum_fold_bound (reroll_perturbation s r).x (reroll_perturbation s r).y
      (reroll_perturbation s r).step (reroll_perturbation s r).part_perturbation
      (reroll_perturbation s r).density
  obtain ⟨hz1, hz2⟩ := drum_fold_density_zero (reroll_perturbation s r).x
      (reroll_perturbation s r).y (reroll_perturbation s r).step
      (reroll_perturbation s r).part_perturbation (reroll_perturbation s r).density c hc hd'
  have hshift_c : Nat.testBit (([0, 1, 2].foldl (chan_step (reroll_perturbation s r).x
      (reroll_perturbation s r).y (reroll_perturbation s r).step
      (reroll_perturbation s r).part_perturbation (reroll_perturbation s r).density)
      (0, 0)).2 <<< 3) c = false := by
    rw [Nat.testBit_shiftLeft]
    have h3 : ¬ 3 ≤ c := by omega
    rw [decide_eq_false h3, Bool.false_and]
  have hshift_c3 : Nat.testBit (([0, 1, 2].foldl (chan_step (reroll_perturbation s r).x
      (reroll_perturbation s r).y (reroll_perturbation s r).step
      (reroll_perturbation s r).part_perturbation (reroll_perturbation s r).density)
      (0, 0)).2 <<< 3) (c + 3) = false := by
    rw [Nat.testBit_shiftLeft, Nat.add_sub_cancel, hz2, Bool.and_false]
  have hlow_c3 : Nat.testBit (([0, 1, 2].foldl (chan_step (reroll_perturbation s r).x
      (reroll_perturbation s r).y (reroll_perturbation s r).step
      (reroll_perturbation s r).part_perturbation (reroll_perturbation s r).density)
      (0, 0)).1) (c + 3) = false := by
    refine Nat.testBit_eq_false_of_lt (lt_of_lt_of_le hb1 ?_)
    calc (8 : Nat) = 2 ^ 3 := rfl
    _ ≤ 2 ^ (c + 3) := Nat.pow_le_pow_right (by omega) (by omega)
  have h64c : Nat.testBit (1 <<< 6) c = false := by
    rw [Nat.one_shiftLeft]
    exact Nat.testBit_two_pow_of_ne (by omega)
  have h64c3 : Nat.testBit (1 <<< 6) (c + 3) = false := by
    rw [Nat.one_shiftLeft]
    exact Nat.testBit_two_pow_of_ne (by omega)
  have h128c : Nat.testBit (1 <<< 7) c = false := by
    rw [Nat.one_shiftLeft]
    exact Nat.testBit_two_pow_of_ne (by omega)
  have h128c3 : Nat.testBit (1 <<< 7) (c + 3) = false := by
    rw [Nat.one_shiftLeft]
    exact Nat.testBit_two_pow_of_ne (by omega)
  unfold evaluate_drums
  dsimp only
  split
  · constructor
    · rw [Nat.testBit_or, Nat.testBit_or, Nat.testBit_or, hz1, hshift_c, h64c, h128c]
      rfl
    · rw [Nat.testBit_or, Nat.testBit_or, Nat.testBit_or, hlow_c3, hshift_c3, h64c3, h128c3]
      rfl
  · constructor
    · rw [Nat.testBit_or, Nat.testBit_or, hz1, hshift_c, h64c]
      rfl
    · rw [Nat.testBit_or, Nat.testBit_or, hlow_c3, hshift_c3, h64c3]
      rfl

/-- Witness for C10 at a concrete state with `density[0] = 0`. -/
theorem evaluate_drums_zero_density_witness :
    (0 : Nat) < 3 ∧
    ({ initState with density := ⟨0, 128, 128⟩ } : PGState).density.get 0 = 0 ∧
    (Nat.testBit (evaluate_drums { initState with density := ⟨0, 128, 128⟩ } ⟨9, 8, 7⟩).1 0 = false ∧
     Nat.testBit (evaluate_drums { initState with density := ⟨0, 128, 128⟩ } ⟨9, 8, 7⟩).1 (0 + 3) = false) :=
  ⟨by decide, by rfl,
   evaluate_drums_zero_density { initState with density := ⟨0, 128, 128⟩ } ⟨9, 8, 7⟩ 0
     (by decide) (by rfl)⟩

/-! ## Claim C8 (randomness 0 makes grid mode deterministic) -/

/-- With `randomness = 0` the re-roll writes zeros whatever the draws. -/
theorem reroll_randomness_zero (s : PGState) (r : Chans) (hr : s.randomness = 0) :
    reroll_perturbation s r =
      if s.step = 0 then { s with part_perturbation := ⟨0, 0, 0⟩ } else s := by
  unfold reroll_perturbation
  rw [hr]
  simp

/-- Claim C8: if `randomness = 0` then (i) `evaluate_drums` returns the
same byte and the same successor state for any two injected random
sources, (ii) every perturbation entry written by the cycle-start
re-roll is 0, and (iii) from an all-zero perturbation the byte is the
value of `drumsRef`, a function of `(x, y, density, step)` alone. -/
theorem evaluate_drums_randomness_zero (s : PGState) (r r' : Chans) (hr : s.randomness = 0) :
    evaluate_drums s r = evaluate_drums s r' ∧
    (s.step = 0 → (evaluate_drums s r).2.part_perturbation = ⟨0, 0, 0⟩) ∧
    (s.part_perturbation = ⟨0, 0, 0⟩ →
      (evaluate_drums s r).1 = drumsRef s.x s.y s.density s.step) := by
  have h1 := reroll_randomness_zero s r hr
  have h2 := reroll_randomness_zero s r' hr
  refine ⟨?_, ?_, ?_⟩
  · unfold evaluate_drums
    rw [h1, h2]
  · intro h0
    unfold evaluate_drums
    dsimp only
    rw [h1, if_pos h0]
  · intro hp
    unfold evaluate_drums drumsRef
    rw [h1]
    by_cases h0 : s.step = 0
    · simp [h0]
    · simp [h0, hp]

/-- Witness for C8 at the init state and two different draw triples. -/
theorem evaluate_drums_randomness_zero_witness :
    initState.randomness = 0 ∧
    (evaluate_drums initState ⟨1, 2, 3⟩ = evaluate_drums initState ⟨200, 100, 50⟩ ∧
     (initState.step = 0 →
       (evaluate_drums initState ⟨1, 2, 3⟩).2.part_perturbation = ⟨0, 0, 0⟩) ∧
     (initState.part_perturbation = ⟨0, 0, 0⟩ →
       (evaluate_drums initState ⟨1, 2, 3⟩).1
         = drumsRef initState.x initState.y initState.density initState.step)) :=
  ⟨by rfl, evaluate_drums_randomness_zero initState ⟨1, 2, 3⟩ ⟨200, 100, 50⟩ (by rfl)⟩

/-! ## Claim C6 (Euclidean periodicity) -/

/-- The source's truthiness test `pattern & (1 << k)` is exactly bit `k`
of the pattern. -/
theorem and_one_shiftLeft_ne_zero (n i : Nat) :
    (n &&& (1 <<< i) ≠ 0) ↔ Nat.testBit n i = true := by
  rw [Nat.one_shiftLeft]
  constructor
  · intro h
    by_contra hb
    apply h
    apply Nat.eq_of_testBit_eq
    intro j
    rw [Nat.testBit_and, Nat.zero_testBit, Nat.testBit_two_pow]
    by_cases hij : i = j
    · subst hij
      rw [Bool.not_eq_true] at hb
      rw [hb, Bool.false_and]
    · rw [decide_eq_false hij, Bool.and_false]
  · intro h hz
    have hcongr := congrArg (fun m => Nat.testBit m i) hz
    simp only [Nat.testBit_and, Nat.testBit_two_pow, Nat.zero_testBit] at hcongr
    rw [h] at hcongr
    simp at hcongr

/-- Bit `c` of a conditional trigger-bit or. -/
theorem testBit_cond_or (p : Prop) [Decidable p] (a i c : Nat) :
    Nat.testBit (if p then a ||| 1 <<< i else a) c =
      ((decide p && decide (i = c)) || Nat.testBit a c) := by
  split
  · next hp =>
    rw [Nat.testBit_or, Nat.one_shiftLeft, Nat.testBit_two_pow,
      decide_eq_true hp, Bool.true_and, Bool.or_comm]
  · next hp =>
    rw [decide_eq_false hp, Bool.false_and, Bool.false_or]

/-- One `evaluate_euclidean` call does not change the densities. -/
theorem evaluate_euclidean_density (s : PGState) :
    (evaluate_euclidean s).2.density = s.density := rfl

/-- One `evaluate_euclidean` call advances each channel's cursor by one,
wrapping modulo 32. -/
theorem evaluate_euclidean_cursor (s : PGState) (c : Nat) (hc : c < 3) :
    (evaluate_euclidean s).2.euclidean_step.get c = (s.euclidean_step.get c + 1) % 32 := by
  have h3 : c = 0 ∨ c = 1 ∨ c = 2 := by omega
  rcases h3 with h | h | h <;> subst h <;> rfl

/-- Bit `c` of the byte returned by `evaluate_euclidean` is bit
`euclidean_step[c]` of channel `c`'s consulted mask. -/
theorem evaluate_euclidean_out (s : PGState) (c : Nat) (hc : c < 3) :
    (Nat.testBit (evaluate_euclidean s).1 c = true ↔
      Nat.testBit (euclidean_mask (s.density.get c)) (s.euclidean_step.get c) = true) := by
  have h3 : c = 0 ∨ c = 1 ∨ c = 2 := by omega
  unfold evaluate_euclidean
  simp only [List.foldl]
  dsimp only [Chans.get, Chans.set]
  rcases h3 with h | h | h <;> subst h <;>
    simp only [testBit_cond_or, Nat.zero_testBit, Bool.or_false] <;>
    simp [and_one_shiftLeft_ne_zero]

/-- The densities are invariant under iterated `evaluate_euclidean`. -/
theorem euc_iter_density (s : PGState) (n : Nat) : (euc_iter s n).density = s.density := by
  induction n with
  | zero => rfl
  | succ n ih =>
    show (evaluate_euclidean (euc_iter s n)).2.density = s.density
    rw [evaluate_euclidean_density, ih]

/-- A channel cursor that starts at 0 reads `n % 32` after `n` calls. -/
theorem euc_iter_cursor (s : PGState) (c : Nat) (hc : c < 3)
    (h0 : s.euclidean_step.get c = 0) :
    ∀ n, (euc_iter s n).euclidean_step.get c = n % 32 := by
  intro n
  induction n with
  | zero => simpa using h0
  | succ n ih =>
    show (evaluate_euclidean (euc_iter s n)).2.euclidean_step.get c = (n + 1) % 32
    rw [evaluate_euclidean_cursor (euc_iter s n) c hc, ih]
    omega

/-- Claim C6: with channel `c`'s cursor starting at 0 and the densities
held fixed, the `(k+1)`-st of 32 consecutive `evaluate_euclidean` calls
produces, as channel `c`'s trigger bit, exactly bit `k` of the consulted
mask `euclidean_patterns[((density[c] >> 5) + 1) - 1]`, the cursor
advancing by one and wrapping modulo 32 on each call. -/
theorem euclidean_periodicity (s : PGState) (c k : Nat) (hc : c < 3)
    (h0 : s.euclidean_step.get c = 0) (hk : k < 32) :
    (Nat.testBit (euc_out s k) c = true ↔
      Nat.testBit (euclidean_mask (s.density.get c)) k = true) ∧
    (euc_iter s (k + 1)).euclidean_step.get c = (k + 1) % 32 := by
  constructor
  · unfold euc_out
    have hcur := euc_iter_cursor s c hc h0 k
    have hden : (euc_iter s k).density = s.density := euc_iter_density s k
    have hout := evaluate_euclidean_out (euc_iter s k) c hc
    rw [hout, hden, hcur, Nat.mod_eq_of_lt hk]
  · exact euc_iter_cursor s c hc h0 (k + 1)

/-- Witness for C6 at the init state, channel 0, first call. -/
theorem euclidean_periodicity_witness :
    (0 : Nat) < 3 ∧ initState.euclidean_step.get 0 = 0 ∧ (0 : Nat) < 32 ∧
    ((Nat.testBit (euc_out initState 0) 0 = true ↔
        Nat.testBit (euclidean_mask (initState.density.get 0)) 0 = true) ∧
      (euc_iter initState (0 + 1)).euclidean_step.get 0 = (0 + 1) % 32) :=
  ⟨by decide, by rfl, by decide,
   euclidean_periodicity initState 0 0 (by decide) (by rfl) (by decide)⟩
